import Mathlib

/-!
Shallow embedding of `line_follow.py` (okoeth/cozmo-linefollow), a
stop-and-go visual line follower for the Cozmo robot.

Modelling conventions:
- The OpenCV perception pipeline in `get_path_rect` (grayscale, crop to the
  bottom zone, Gaussian blur, Otsu threshold, invert, `findContours`) is an
  external library computation; it is abstracted by its output, the list of
  contours found in the cropped zone image, each contour represented by its
  `cv2.boundingRect`, a zone-local rectangle with non-negative integer
  coordinates.  The embedded `get_path_rect` is the branch logic of lines
  60-70 of the source, from that list onward.  The second component of its
  result counts the warning events the function logs.
- Robot calls (`robot.turn_in_place`, `robot.drive_straight`,
  `robot.set_head_angle`) are modelled by the trace of motion commands
  issued, in order.  `cv2.imshow` / drawing calls are diagnostics that issue
  no motion command and return no data used later; they are not modelled.
- The module-level constants of lines 27-43 are the program configuration;
  `correct_position` reads them as globals, which is modelled by a `Config`
  record together with the `defaultConfig` holding the source values, and
  the source function being the instantiation at `defaultConfig`.
- Python ints are modelled by `Int` where signed arithmetic occurs (centers,
  gaps, degrees) and by `Nat` for pixel rectangles, which `cv2.boundingRect`
  always returns non-negative.
-/

/-- An axis-aligned pixel rectangle: `x, y, w, h` as returned by
`cv2.boundingRect` and as produced by `get_path_rect`. -/
structure Rect where
  x : Nat
  y : Nat
  w : Nat
  h : Nat
  deriving DecidableEq, Repr

/-- Bottom zone where the path contour is searched in (source lines 28-31). -/
def btm_zn_x : Nat := 30

/-- Zone top edge (source line 29). -/
def btm_zn_y : Nat := 180

/-- Zone width (source line 30). -/
def btm_zn_w : Nat := 260

/-- Zone height (source line 31). -/
def btm_zn_h : Nat := 20

/-- Small relative/absolute gap threshold in pixels (source line 34). -/
def gap_s : Int := 3

/-- Medium gap threshold in pixels (source line 35). -/
def gap_m : Int := 6

/-- Large gap threshold in pixels (source line 36). -/
def gap_l : Int := 12

/-- Small turn magnitude in degrees (source line 37). -/
def turn_s : Int := 10

/-- Medium turn magnitude in degrees (source line 38). -/
def turn_m : Int := 20

/-- Large turn magnitude in degrees (source line 39). -/
def turn_l : Int := 30

/-- Small lateral move distance in mm (source line 40). -/
def move_s : Int := 5

/-- Medium lateral move distance in mm (source line 41). -/
def move_m : Int := 10

/-- Large lateral move distance in mm (source line 42). -/
def move_l : Int := 15

/-- Camera center column in pixels (source line 43). -/
def cam_center : Int := 160

/-- The module-level correction constants of source lines 34-43, bundled as a
record: `correct_position` reads them as globals, so running the program with
retuned constants is instantiating the decision function at another record. -/
structure Config where
  gap_s : Int
  gap_m : Int
  gap_l : Int
  turn_s : Int
  turn_m : Int
  turn_l : Int
  move_s : Int
  move_m : Int
  move_l : Int
  cam_center : Int
  deriving DecidableEq, Repr

/-- The configuration actually written at source lines 34-43. -/
def defaultConfig : Config :=
  ⟨gap_s, gap_m, gap_l, turn_s, turn_m, turn_l, move_s, move_m, move_l,
   cam_center⟩

/-- The sentinel `0, 0, 0, 0` returned by `get_path_rect` at source line 62
when no contour is found: the no-path (found=false) observation. -/
def no_path_rect : Rect := ⟨0, 0, 0, 0⟩

/-- Source lines 45-70, from the contour list onward (the cv2 pipeline that
produces the contour list is abstracted, see the header).  If no contour is
found, log one warning and return `0, 0, 0, 0`; if more than one is found,
log one warning (plus diagnostic rendering, not modelled); either way the
bounding rect of the FIRST contour is taken and the zone offset is added to
its `x` and `y`.  The `Nat` component counts the warnings logged. -/
def get_path_rect (cnts : List Rect) : Rect × Nat :=
  match cnts with
  | [] => (no_path_rect, 1)
  | r :: rest =>
      (⟨r.x + btm_zn_x, r.y + btm_zn_y, r.w, r.h⟩,
       if rest.isEmpty then 0 else 1)

/-- Source lines 73-76: `int(round(x + w/2))`.  In Python, `w/2` is float
division, so for even `w` the value is exact and for odd `w` it is a half,
which `round` resolves half-to-even (banker's rounding). -/
def get_path_center (x w : Nat) : Nat :=
  if w % 2 = 0 then x + w / 2
  else if (x + w / 2) % 2 = 0 then x + w / 2
  else x + w / 2 + 1

/-- One motion-interface call: `robot.turn_in_place(degrees(d))`,
`robot.drive_straight(distance_mm(d), speed_mmps(s))`, or
`robot.set_head_angle(...)`. -/
inductive MotionCmd where
  | turnInPlace (deg : Int)
  | driveStraight (dist speed : Int)
  | setHeadAngle
  deriving DecidableEq, Repr

/-- Source lines 98-104: `move_right` turns -45 degrees in place, drives
`move` mm at 5 mmps, then turns +45 degrees, modelled as its command trace. -/
def move_right (move : Int) : List MotionCmd :=
  [.turnInPlace (-45), .driveStraight move 5, .turnInPlace 45]

/-- Source lines 107-113: `move_left` turns +45 degrees in place, drives
`move` mm at 5 mmps, then turns -45 degrees, modelled as its command trace. -/
def move_left (move : Int) : List MotionCmd :=
  [.turnInPlace 45, .driveStraight move 5, .turnInPlace (-45)]

/-- The decision `correct_position` takes: a turn in place by a signed number
of degrees (positive is a left/counterclockwise turn, the Cozmo convention),
a lateral move left or right by a distance in mm, or nothing. -/
inductive CorrectAction where
  | turn (deg : Int)
  | moveLeft (dist : Int)
  | moveRight (dist : Int)
  | noop
  deriving DecidableEq, Repr

/-- Source lines 116-172, the branch cascade of `correct_position` read over
an arbitrary configuration record (the source reads the module globals, i.e.
`defaultConfig`).  Each branch's robot call is represented by the
`CorrectAction` it issues; `correct_position_cmds` expands actions into the
exact command traces of the source. -/
def correct_position_cfg (c : Config) (prv_center cur_center : Int) :
    CorrectAction :=
  let gap_rel := prv_center - cur_center
  let gap_abs := c.cam_center - cur_center
  if gap_rel < -c.gap_l then .turn c.turn_l
  else if gap_rel < -c.gap_m then .turn c.turn_m
  else if gap_rel < -c.gap_s then .turn c.turn_s
  else if gap_rel > c.gap_l then .turn (-c.turn_l)
  else if gap_rel > c.gap_m then .turn (-c.turn_m)
  else if gap_rel > c.gap_s then .turn (-c.turn_s)
  else if gap_abs < -c.gap_l then .moveLeft c.move_l
  else if gap_abs < -c.gap_m then .moveLeft c.move_m
  else if gap_abs < -c.gap_s then .moveLeft c.move_s
  else if gap_abs > c.gap_l then .moveRight c.move_l
  else if gap_abs > c.gap_m then .moveRight c.move_m
  else if gap_abs > c.gap_s then .moveRight c.move_s
  else .noop

/-- `correct_position` as written: the cascade at the module constants. -/
def correct_position (prv_center cur_center : Int) : CorrectAction :=
  correct_position_cfg defaultConfig prv_center cur_center

/-- The motion commands a `CorrectAction` issues: the turn branches call
`robot.turn_in_place(degrees(d))` directly, the move branches call the
`move_left` / `move_right` helpers, and the final `else`-less fall-through
issues nothing. -/
def correct_action_cmds : CorrectAction → List MotionCmd
  | .turn d => [.turnInPlace d]
  | .moveLeft m => move_left m
  | .moveRight m => move_right m
  | .noop => []

/-- The command trace of one `correct_position` call (source lines 116-172). -/
def correct_position_cmds (prv_center cur_center : Int) : List MotionCmd :=
  correct_action_cmds (correct_position prv_center cur_center)

/-- Source line 131 evaluated when the caller supplies no previous
observation: Python computes `prv_center - cur_center`, which for
`prv_center = None` raises a `TypeError`; there is no branch in the source
that handles a missing previous center. -/
def correct_position_opt (prv_center : Option Int) (cur_center : Int) :
    Except String CorrectAction :=
  match prv_center with
  | none => .error "TypeError"
  | some p => .ok (correct_position p cur_center)

/-- Source lines 175-198, `step_forward`, modelled on the two contour lists
the two camera frames reduce to: set the head angle, detect the previous
rect, drive forward 10 mm at 5 mmps, set the head angle, detect the current
rect (drawing calls are diagnostics, not modelled), then run
`correct_position` on the two centers.  The result is the full motion
command trace plus the two observations held in `prv_*` / `cur_*`. -/
def step_forward (cnts1 cnts2 : List Rect) :
    List MotionCmd × Rect × Rect :=
  let p := (get_path_rect cnts1).1
  let c := (get_path_rect cnts2).1
  ([.setHeadAngle, .driveStraight 10 5, .setHeadAngle] ++
     correct_position_cmds (↑(get_path_center p.x p.w))
       (↑(get_path_center c.x c.w)),
   p, c)

/-- True exactly on the `turn` variant. -/
def isTurn : CorrectAction → Bool
  | .turn _ => true
  | _ => false

/-- The magnitude a `CorrectAction` carries: unsigned degrees for a turn,
distance for a move, 0 for no action. -/
def actionMagnitude : CorrectAction → Int
  | .turn d => (d.natAbs : Int)
  | .moveLeft m => m
  | .moveRight m => m
  | .noop => 0

/-- Left/right mirror of an action: a turn reverses sign, a lateral move
swaps side, magnitudes are kept. -/
def mirror_action : CorrectAction → CorrectAction
  | .turn d => .turn (-d)
  | .moveLeft m => .moveRight m
  | .moveRight m => .moveLeft m
  | .noop => .noop

/-- Left/right mirror of a motion command: turns reverse sign, drives and
head moves are unchanged. -/
def mirror_cmd : MotionCmd → MotionCmd
  | .turnInPlace d => .turnInPlace (-d)
  | c => c

/-- Net signed heading change of a command trace, in degrees. -/
def turn_sum (cmds : List MotionCmd) : Int :=
  cmds.foldl
    (fun s c =>
      s + match c with
          | .turnInPlace d => d
          | _ => 0)
    0

/-- The C5 scenario configuration: bands small 20 px / 5 degrees, medium
60 px / 15 degrees, large 120 px / 45 degrees, camera center 160; the move
distances, which the scenario leaves unspecified, keep the source values. -/
def c5_config : Config := ⟨20, 60, 120, 5, 15, 45, 5, 10, 15, 160⟩

/-- C2: for a frame whose zone contains zero foreground regions,
`get_path_rect` returns the valid no-path value `0, 0, 0, 0` (it returns
normally, it does not raise) and logs exactly one warning event. -/
theorem get_path_rect_no_region : get_path_rect [] = (no_path_rect, 1) := rfl

/-- C1 (code-bug evidence): on two consecutive cycles in which detection
finds no contour, `step_forward` does NOT issue zero motion commands: it
still drives forward 10 mm, and `correct_position(robot, 0, 0)` computed
from the `0, 0, 0, 0` sentinel sees an absolute gap of 160 and issues
`move_right(move_l)`, i.e. a turn of -45 degrees, a 15 mm drive and a turn
of +45 degrees synthesized from the invalid observation. -/
theorem step_forward_lost_issues_motion :
    step_forward [] [] =
      ([.setHeadAngle, .driveStraight 10 5, .setHeadAngle,
        .turnInPlace (-45), .driveStraight 15 5, .turnInPlace 45],
       no_path_rect, no_path_rect) ∧
    (step_forward [] []).1 ≠ [] := by
  constructor <;> decide

/-- C7: for every frame in which at least one contour is found, the rect
returned by `get_path_rect` is the first contour's zone-local bounding box
translated into full-frame space, the zone offset added to `x` and `y`; as
the zone offsets are positive, the returned coordinates are never the
zone-local ones. -/
theorem get_path_rect_full_frame (r : Rect) (rest : List Rect) :
    (get_path_rect (r :: rest)).1 =
      ⟨r.x + btm_zn_x, r.y + btm_zn_y, r.w, r.h⟩ ∧
    (get_path_rect (r :: rest)).1.x ≠ r.x ∧
    (get_path_rect (r :: rest)).1.y ≠ r.y := by
  refine ⟨rfl, ?_, ?_⟩ <;> simp [get_path_rect, btm_zn_x, btm_zn_y]

/-- C10: if the first contour's bounding box is a valid box of the cropped
zone image (inside the 260 by 20 crop, as `cv2.boundingRect` of a contour
of that image always is), then the
box `get_path_rect` returns lies within the zone's frame-space extent:
`x` in `[30, 290]`, `y` in `[180, 200]`, with `x+w` and `y+h` inside as
well; in particular it is never the `0, 0, 0, 0` no-path sentinel. -/
theorem get_path_rect_in_zone (r : Rect) (rest : List Rect)
    (hx : r.x + r.w ≤ btm_zn_w) (hy : r.y + r.h ≤ btm_zn_h) :
    30 ≤ (get_path_rect (r :: rest)).1.x ∧
    (get_path_rect (r :: rest)).1.x + (get_path_rect (r :: rest)).1.w ≤ 290 ∧
    180 ≤ (get_path_rect (r :: rest)).1.y ∧
    (get_path_rect (r :: rest)).1.y + (get_path_rect (r :: rest)).1.h ≤ 200 ∧
    (get_path_rect (r :: rest)).1 ≠ no_path_rect := by
  simp only [get_path_rect, btm_zn_w, btm_zn_h, btm_zn_x, btm_zn_y,
    no_path_rect] at *
  refine ⟨by omega, by omega, by omega, by omega, ?_⟩
  intro hcontra
  have hx0 : r.x + 30 = 0 := congrArg Rect.x hcontra
  omega

/-- Witness for C10 at the concrete zone-local box `10, 5, 40, 10`. -/
theorem get_path_rect_in_zone_witness :
    30 ≤ (get_path_rect [⟨10, 5, 40, 10⟩]).1.x ∧
    (get_path_rect [⟨10, 5, 40, 10⟩]).1.x +
      (get_path_rect [⟨10, 5, 40, 10⟩]).1.w ≤ 290 ∧
    180 ≤ (get_path_rect [⟨10, 5, 40, 10⟩]).1.y ∧
    (get_path_rect [⟨10, 5, 40, 10⟩]).1.y +
      (get_path_rect [⟨10, 5, 40, 10⟩]).1.h ≤ 200 ∧
    (get_path_rect [⟨10, 5, 40, 10⟩]).1 ≠ no_path_rect :=
  get_path_rect_in_zone ⟨10, 5, 40, 10⟩ [] (by decide) (by decide)

/-- C9: for every move distance, `move_right` is exactly a -45 degree turn,
a straight drive, then a +45 degree turn, `move_left` is its left/right
mirror image, and the turns in each trace sum to zero degrees, leaving the
commanded heading unchanged. -/
theorem lateral_moves_preserve_heading (m : Int) :
    turn_sum (move_right m) = 0 ∧ turn_sum (move_left m) = 0 ∧
    move_left m = (move_right m).map mirror_cmd := by
  refine ⟨?_, ?_, ?_⟩ <;>
    simp [move_right, move_left, turn_sum, mirror_cmd, List.foldl]

/-- C5 counterexample: with camera center 160 and the scenario bands
(small 20 px / 5 degrees, medium 60 px / 15 degrees, large 120 px / 45
degrees), an observed center of 50 does NOT produce a leftward 15 degree
turn: with a stable previous center (50) the absolute gap 110 lands in the
medium move band and the code emits a rightward 10 mm move, and with a
previous center at the camera center (160) the relative gap 110 emits a
turn of -15 degrees, a rightward turn. -/
theorem c5_scenario_not_left_turn :
    correct_position_cfg c5_config 50 50 ≠ .turn 15 ∧
    correct_position_cfg c5_config 160 50 ≠ .turn 15 := by
  decide

/-- C5 amended: under the scenario configuration and observed center 50,
a stable previous center (relative gap 0, absolute gap 110) yields a
medium-band rightward move of 10 mm, and a previous center of 160 (relative
gap 110) yields a medium-band rightward turn of 15 degrees; in neither
reading a leftward 15 degree turn. -/
theorem c5_scenario_actual :
    correct_position_cfg c5_config 50 50 = .moveRight 10 ∧
    correct_position_cfg c5_config 160 50 = .turn (-15) := by
  decide

/-- C8 counterexample: supplying no previous observation does not put the
policy into a single-frame absolute-gap mode: line 131 computes
`prv_center - cur_center`, which for a missing (`None`) previous center
raises a `TypeError` before any correction is chosen. -/
theorem correct_position_none_raises :
    correct_position_opt none 50 = .error "TypeError" := rfl

/-- C8 amended: the policy has no single-frame mode: with no previous
center it raises a `TypeError`, and in the nearest realizable degradation,
a previous center equal to the current one, the correction is
absolute-gap-only through lateral move actions, never a turn, and no
forward-step distance is returned (the cascade's codomain carries none). -/
theorem correct_position_no_single_frame_mode (cur : Int) :
    correct_position_opt none cur = .error "TypeError" ∧
    isTurn (correct_position cur cur) = false := by
  refine ⟨rfl, ?_⟩
  simp only [correct_position, correct_position_cfg, defaultConfig,
    gap_s, gap_m, gap_l, turn_s, turn_m, turn_l, move_s, move_m, move_l,
    cam_center, sub_self]
  norm_num
  split_ifs <;> rfl

/-- The cascade of `correct_position` spelled with the values of the module
constants, for case analysis: definitional unfolding of the source cascade
at `defaultConfig`. -/
theorem correct_position_def (prv cur : Int) :
    correct_position prv cur =
      if prv - cur < -12 then .turn 30
      else if prv - cur < -6 then .turn 20
      else if prv - cur < -3 then .turn 10
      else if prv - cur > 12 then .turn (-30)
      else if prv - cur > 6 then .turn (-20)
      else if prv - cur > 3 then .turn (-10)
      else if 160 - cur < -12 then .moveLeft 15
      else if 160 - cur < -6 then .moveLeft 10
      else if 160 - cur < -3 then .moveLeft 5
      else if 160 - cur > 12 then .moveRight 15
      else if 160 - cur > 6 then .moveRight 10
      else if 160 - cur > 3 then .moveRight 5
      else .noop := rfl

/-- Evaluation of the cascade on the region of its first branch. -/
lemma cp_eval1 (prv cur : Int) (h : prv - cur < -12) :
    correct_position prv cur = .turn 30 := by
  rw [correct_position_def, if_pos h]

/-- Evaluation of the cascade on the region of its second branch. -/
lemma cp_eval2 (prv cur : Int) (h1 : -12 ≤ prv - cur) (h2 : prv - cur < -6) :
    correct_position prv cur = .turn 20 := by
  have n1 : ¬(prv - cur < -12) := by omega
  rw [correct_position_def, if_neg n1, if_pos h2]

/-- Evaluation of the cascade on the region of its third branch. -/
lemma cp_eval3 (prv cur : Int) (h1 : -6 ≤ prv - cur) (h2 : prv - cur < -3) :
    correct_position prv cur = .turn 10 := by
  have n1 : ¬(prv - cur < -12) := by omega
  have n2 : ¬(prv - cur < -6) := by omega
  rw [correct_position_def, if_neg n1, if_neg n2, if_pos h2]

/-- Evaluation of the cascade on the region of its fourth branch. -/
lemma cp_eval4 (prv cur : Int) (h : prv - cur > 12) :
    correct_position prv cur = .turn (-30) := by
  have n1 : ¬(prv - cur < -12) := by omega
  have n2 : ¬(prv - cur < -6) := by omega
  have n3 : ¬(prv - cur < -3) := by omega
  rw [correct_position_def, if_neg n1, if_neg n2, if_neg n3, if_pos h]

/-- Evaluation of the cascade on the region of its fifth branch. -/
lemma cp_eval5 (prv cur : Int) (h1 : prv - cur ≤ 12) (h2 : prv - cur > 6) :
    correct_position prv cur = .turn (-20) := by
  have n1 : ¬(prv - cur < -12) := by omega
  have n2 : ¬(prv - cur < -6) := by omega
  have n3 : ¬(prv - cur < -3) := by omega
  have n4 : ¬(prv - cur > 12) := by omega
  rw [correct_position_def, if_neg n1, if_neg n2, if_neg n3, if_neg n4,
    if_pos h2]

/-- Evaluation of the cascade on the region of its sixth branch. -/
lemma cp_eval6 (prv cur : Int) (h1 : prv - cur ≤ 6) (h2 : prv - cur > 3) :
    correct_position prv cur = .turn (-10) := by
  have n1 : ¬(prv - cur < -12) := by omega
  have n2 : ¬(prv - cur < -6) := by omega
  have n3 : ¬(prv - cur < -3) := by omega
  have n4 : ¬(prv - cur > 12) := by omega
  have n5 : ¬(prv - cur > 6) := by omega
  rw [correct_position_def, if_neg n1, if_neg n2, if_neg n3, if_neg n4,
    if_neg n5, if_pos h2]

/-- Evaluation of the cascade on the region of its seventh branch. -/
lemma cp_eval7 (prv cur : Int) (h1 : -3 ≤ prv - cur) (h2 : prv - cur ≤ 3)
    (ha : 160 - cur < -12) :
    correct_position prv cur = .moveLeft 15 := by
  have n1 : ¬(prv - cur < -12) := by omega
  have n2 : ¬(prv - cur < -6) := by omega
  have n3 : ¬(prv - cur < -3) := by omega
  have n4 : ¬(prv - cur > 12) := by omega
  have n5 : ¬(prv - cur > 6) := by omega
  have n6 : ¬(prv - cur > 3) := by omega
  rw [correct_position_def, if_neg n1, if_neg n2, if_neg n3, if_neg n4,
    if_neg n5, if_neg n6, if_pos ha]

/-- Evaluation of the cascade on the region of its eighth branch. -/
lemma cp_eval8 (prv cur : Int) (h1 : -3 ≤ prv - cur) (h2 : prv - cur ≤ 3)
    (ha1 : -12 ≤ 160 - cur) (ha2 : 160 - cur < -6) :
    correct_position prv cur = .moveLeft 10 := by
  have n1 : ¬(prv - cur < -12) := by omega
  have n2 : ¬(prv - cur < -6) := by omega
  have n3 : ¬(prv - cur < -3) := by omega
  have n4 : ¬(prv - cur > 12) := by omega
  have n5 : ¬(prv - cur > 6) := by omega
  have n6 : ¬(prv - cur > 3) := by omega
  have m1 : ¬(160 - cur < -12) := by omega
  rw [correct_position_def, if_neg n1, if_neg n2, if_neg n3, if_neg n4,
    if_neg n5, if_neg n6, if_neg m1, if_pos ha2]

/-- Evaluation of the cascade on the region of its ninth branch. -/
lemma cp_eval9 (prv cur : Int) (h1 : -3 ≤ prv - cur) (h2 : prv - cur ≤ 3)
    (ha1 : -6 ≤ 160 - cur) (ha2 : 160 - cur < -3) :
    correct_position prv cur = .moveLeft 5 := by
  have n1 : ¬(prv - cur < -12) := by omega
  have n2 : ¬(prv - cur < -6) := by omega
  have n3 : ¬(prv - cur < -3) := by omega
  have n4 : ¬(prv - cur > 12) := by omega
  have n5 : ¬(prv - cur > 6) := by omega
  have n6 : ¬(prv - cur > 3) := by omega
  have m1 : ¬(160 - cur < -12) := by omega
  have m2 : ¬(160 - cur < -6) := by omega
  rw [correct_position_def, if_neg n1, if_neg n2, if_neg n3, if_neg n4,
    if_neg n5, if_neg n6, if_neg m1, if_neg m2, if_pos ha2]

/-- Evaluation of the cascade on the region of its tenth branch. -/
lemma cp_eval10 (prv cur : Int) (h1 : -3 ≤ prv - cur) (h2 : prv - cur ≤ 3)
    (ha : 160 - cur > 12) :
    correct_position prv cur = .moveRight 15 := by
  have n1 : ¬(prv - cur < -12) := by omega
  have n2 : ¬(prv - cur < -6) := by omega
  have n3 : ¬(prv - cur < -3) := by omega
  have n4 : ¬(prv - cur > 12) := by omega
  have n5 : ¬(prv - cur > 6) := by omega
  have n6 : ¬(prv - cur > 3) := by omega
  have m1 : ¬(160 - cur < -12) := by omega
  have m2 : ¬(160 - cur < -6) := by omega
  have m3 : ¬(160 - cur < -3) := by omega
  rw [correct_position_def, if_neg n1, if_neg n2, if_neg n3, if_neg n4,
    if_neg n5, if_neg n6, if_neg m1, if_neg m2, if_neg m3, if_pos ha]

/-- Evaluation of the cascade on the region of its eleventh branch. -/
lemma cp_eval11 (prv cur : Int) (h1 : -3 ≤ prv - cur) (h2 : prv - cur ≤ 3)
    (ha1 : 160 - cur ≤ 12) (ha2 : 160 - cur > 6) :
    correct_position prv cur = .moveRight 10 := by
  have n1 : ¬(prv - cur < -12) := by omega
  have n2 : ¬(prv - cur < -6) := by omega
  have n3 : ¬(prv - cur < -3) := by omega
  have n4 : ¬(prv - cur > 12) := by omega
  have n5 : ¬(prv - cur > 6) := by omega
  have n6 : ¬(prv - cur > 3) := by omega
  have m1 : ¬(160 - cur < -12) := by omega
  have m2 : ¬(160 - cur < -6) := by omega
  have m3 : ¬(160 - cur < -3) := by omega
  have m4 : ¬(160 - cur > 12) := by omega
  rw [correct_position_def, if_neg n1, if_neg n2, if_neg n3, if_neg n4,
    if_neg n5, if_neg n6, if_neg m1, if_neg m2, if_neg m3, if_neg m4,
    if_pos ha2]

/-- Evaluation of the cascade on the region of its twelfth branch. -/
lemma cp_eval12 (prv cur : Int) (h1 : -3 ≤ prv - cur) (h2 : prv - cur ≤ 3)
    (ha1 : 160 - cur ≤ 6) (ha2 : 160 - cur > 3) :
    correct_position prv cur = .moveRight 5 := by
  have n1 : ¬(prv - cur < -12) := by omega
  have n2 : ¬(prv - cur < -6) := by omega
  have n3 : ¬(prv - cur < -3) := by omega
  have n4 : ¬(prv - cur > 12) := by omega
  have n5 : ¬(prv - cur > 6) := by omega
  have n6 : ¬(prv - cur > 3) := by omega
  have m1 : ¬(160 - cur < -12) := by omega
  have m2 : ¬(160 - cur < -6) := by omega
  have m3 : ¬(160 - cur < -3) := by omega
  have m4 : ¬(160 - cur > 12) := by omega
  have m5 : ¬(160 - cur > 6) := by omega
  rw [correct_position_def, if_neg n1, if_neg n2, if_neg n3, if_neg n4,
    if_neg n5, if_neg n6, if_neg m1, if_neg m2, if_neg m3, if_neg m4,
    if_neg m5, if_pos ha2]

/-- Evaluation of the cascade on its final fall-through region. -/
lemma cp_eval13 (prv cur : Int) (h1 : -3 ≤ prv - cur) (h2 : prv - cur ≤ 3)
    (ha1 : -3 ≤ 160 - cur) (ha2 : 160 - cur ≤ 3) :
    correct_position prv cur = .noop := by
  have n1 : ¬(prv - cur < -12) := by omega
  have n2 : ¬(prv - cur < -6) := by omega
  have n3 : ¬(prv - cur < -3) := by omega
  have n4 : ¬(prv - cur > 12) := by omega
  have n5 : ¬(prv - cur > 6) := by omega
  have n6 : ¬(prv - cur > 3) := by omega
  have m1 : ¬(160 - cur < -12) := by omega
  have m2 : ¬(160 - cur < -6) := by omega
  have m3 : ¬(160 - cur < -3) := by omega
  have m4 : ¬(160 - cur > 12) := by omega
  have m5 : ¬(160 - cur > 6) := by omega
  have m6 : ¬(160 - cur > 3) := by omega
  rw [correct_position_def, if_neg n1, if_neg n2, if_neg n3, if_neg n4,
    if_neg n5, if_neg n6, if_neg m1, if_neg m2, if_neg m3, if_neg m4,
    if_neg m5, if_neg m6]

/-- When the relative gap is within the small band no turn branch can fire:
whatever the absolute gap, the issued action is a move or nothing. -/
lemma cp_stable_no_turn (prv cur : Int) (h1 : -3 ≤ prv - cur)
    (h2 : prv - cur ≤ 3) : isTurn (correct_position prv cur) = false := by
  by_cases a1 : 160 - cur < -12
  · rw [cp_eval7 prv cur h1 h2 a1]; rfl
  by_cases a2 : 160 - cur < -6
  · rw [cp_eval8 prv cur h1 h2 (by omega) a2]; rfl
  by_cases a3 : 160 - cur < -3
  · rw [cp_eval9 prv cur h1 h2 (by omega) a3]; rfl
  by_cases a4 : 160 - cur > 12
  · rw [cp_eval10 prv cur h1 h2 a4]; rfl
  by_cases a5 : 160 - cur > 6
  · rw [cp_eval11 prv cur h1 h2 (by omega) a5]; rfl
  by_cases a6 : 160 - cur > 3
  · rw [cp_eval12 prv cur h1 h2 (by omega) a6]; rfl
  rw [cp_eval13 prv cur h1 h2 (by omega) (by omega)]; rfl

/-- C3: the cascade checks bands in strictly descending magnitude order
with strict comparisons: a relative gap whose magnitude exceeds `gap_l`
always gets the large turn magnitude, never medium or small; a gap exactly
equal to a threshold falls into the next lower band (`gap_l` gives the
medium turn, `gap_m` the small turn, `gap_s` no turn at all); and, the
relative gap being within the small band, the same holds of the absolute
gap over the move bands. -/
theorem correct_position_band_boundaries (prv cur : Int) :
    ((prv - cur < -gap_l ∨ gap_l < prv - cur) →
      actionMagnitude (correct_position prv cur) = turn_l) ∧
    ((prv - cur = -gap_l ∨ prv - cur = gap_l) →
      actionMagnitude (correct_position prv cur) = turn_m) ∧
    ((prv - cur = -gap_m ∨ prv - cur = gap_m) →
      actionMagnitude (correct_position prv cur) = turn_s) ∧
    ((prv - cur = -gap_s ∨ prv - cur = gap_s) →
      isTurn (correct_position prv cur) = false) ∧
    (-gap_s ≤ prv - cur → prv - cur ≤ gap_s →
      (cam_center - cur < -gap_l ∨ gap_l < cam_center - cur) →
      actionMagnitude (correct_position prv cur) = move_l) ∧
    (-gap_s ≤ prv - cur → prv - cur ≤ gap_s →
      (cam_center - cur = -gap_l ∨ cam_center - cur = gap_l) →
      actionMagnitude (correct_position prv cur) = move_m) ∧
    (-gap_s ≤ prv - cur → prv - cur ≤ gap_s →
      (cam_center - cur = -gap_m ∨ cam_center - cur = gap_m) →
      actionMagnitude (correct_position prv cur) = move_s) ∧
    (-gap_s ≤ prv - cur → prv - cur ≤ gap_s →
      (cam_center - cur = -gap_s ∨ cam_center - cur = gap_s) →
      correct_position prv cur = .noop) := by
  simp only [gap_s, gap_m, gap_l, turn_s, turn_m, turn_l, move_s, move_m,
    move_l, cam_center]
  refine ⟨?_, ?_, ?_, ?_, ?_, ?_, ?_, ?_⟩
  · rintro (h | h)
    · rw [cp_eval1 prv cur h]; decide
    · rw [cp_eval4 prv cur h]; decide
  · rintro (h | h)
    · rw [cp_eval2 prv cur (by omega) (by omega)]; decide
    · rw [cp_eval5 prv cur (by omega) (by omega)]; decide
  · rintro (h | h)
    · rw [cp_eval3 prv cur (by omega) (by omega)]; decide
    · rw [cp_eval6 prv cur (by omega) (by omega)]; decide
  · intro h
    exact cp_stable_no_turn prv cur (by omega) (by omega)
  · rintro h1 h2 (ha | ha)
    · rw [cp_eval7 prv cur h1 h2 ha]; decide
    · rw [cp_eval10 prv cur h1 h2 ha]; decide
  · rintro h1 h2 (ha | ha)
    · rw [cp_eval8 prv cur h1 h2 (by omega) (by omega)]; decide
    · rw [cp_eval11 prv cur h1 h2 (by omega) (by omega)]; decide
  · rintro h1 h2 (ha | ha)
    · rw [cp_eval9 prv cur h1 h2 (by omega) (by omega)]; decide
    · rw [cp_eval12 prv cur h1 h2 (by omega) (by omega)]; decide
  · rintro h1 h2 (ha | ha)
    · rw [cp_eval13 prv cur h1 h2 (by omega) (by omega)]
    · rw [cp_eval13 prv cur h1 h2 (by omega) (by omega)]

/-- Witness for C3 at concrete centers straddling each band boundary. -/
theorem correct_position_band_boundaries_witness :
    actionMagnitude (correct_position 180 160) = turn_l ∧
    actionMagnitude (correct_position 172 160) = turn_m ∧
    actionMagnitude (correct_position 166 160) = turn_s ∧
    isTurn (correct_position 163 160) = false ∧
    actionMagnitude (correct_position 140 140) = move_l ∧
    actionMagnitude (correct_position 148 148) = move_m ∧
    actionMagnitude (correct_position 154 154) = move_s ∧
    correct_position 157 157 = .noop :=
  ⟨(correct_position_band_boundaries 180 160).1 (Or.inr (by decide)),
   (correct_position_band_boundaries 172 160).2.1 (Or.inr (by decide)),
   (correct_position_band_boundaries 166 160).2.2.1 (Or.inr (by decide)),
   (correct_position_band_boundaries 163 160).2.2.2.1 (Or.inr (by decide)),
   (correct_position_band_boundaries 140 140).2.2.2.2.1
     (by decide) (by decide) (Or.inr (by decide)),
   (correct_position_band_boundaries 148 148).2.2.2.2.2.1
     (by decide) (by decide) (Or.inr (by decide)),
   (correct_position_band_boundaries 154 154).2.2.2.2.2.2.1
     (by decide) (by decide) (Or.inr (by decide)),
   (correct_position_band_boundaries 157 157).2.2.2.2.2.2.2
     (by decide) (by decide) (Or.inr (by decide))⟩

/-- C4: the decision priority, first match winning: a relative gap beyond
the small band always yields a turn whose angle has the sign opposite the
relative gap (a rightward observed shift, negative `gap_rel`, gives a
positive, i.e. leftward, turn); else, the relative gap within the small
band, an absolute gap beyond the small threshold yields a lateral move of
positive distance on the side opposite the gap's sign (negative `gap_abs`,
path right of center, moves left; positive `gap_abs` moves right); else no
action is issued. -/
theorem correct_position_priority (prv cur : Int) :
    (prv - cur < -gap_s →
      ∃ d : Int, correct_position prv cur = .turn d ∧ 0 < d) ∧
    (gap_s < prv - cur →
      ∃ d : Int, correct_position prv cur = .turn d ∧ d < 0) ∧
    (-gap_s ≤ prv - cur → prv - cur ≤ gap_s → cam_center - cur < -gap_s →
      ∃ m : Int, correct_position prv cur = .moveLeft m ∧ 0 < m) ∧
    (-gap_s ≤ prv - cur → prv - cur ≤ gap_s → gap_s < cam_center - cur →
      ∃ m : Int, correct_position prv cur = .moveRight m ∧ 0 < m) ∧
    (-gap_s ≤ prv - cur → prv - cur ≤ gap_s →
      -gap_s ≤ cam_center - cur → cam_center - cur ≤ gap_s →
      correct_position prv cur = .noop) := by
  simp only [gap_s, cam_center]
  refine ⟨?_, ?_, ?_, ?_, ?_⟩
  · intro h
    by_cases h1 : prv - cur < -12
    · exact ⟨30, cp_eval1 prv cur h1, by decide⟩
    by_cases h2 : prv - cur < -6
    · exact ⟨20, cp_eval2 prv cur (by omega) h2, by decide⟩
    exact ⟨10, cp_eval3 prv cur (by omega) h, by decide⟩
  · intro h
    by_cases h1 : prv - cur > 12
    · exact ⟨-30, cp_eval4 prv cur h1, by decide⟩
    by_cases h2 : prv - cur > 6
    · exact ⟨-20, cp_eval5 prv cur (by omega) h2, by decide⟩
    exact ⟨-10, cp_eval6 prv cur (by omega) h, by decide⟩
  · intro h1 h2 ha
    by_cases a1 : 160 - cur < -12
    · exact ⟨15, cp_eval7 prv cur h1 h2 a1, by decide⟩
    by_cases a2 : 160 - cur < -6
    · exact ⟨10, cp_eval8 prv cur h1 h2 (by omega) a2, by decide⟩
    exact ⟨5, cp_eval9 prv cur h1 h2 (by omega) ha, by decide⟩
  · intro h1 h2 ha
    by_cases a1 : 160 - cur > 12
    · exact ⟨15, cp_eval10 prv cur h1 h2 a1, by decide⟩
    by_cases a2 : 160 - cur > 6
    · exact ⟨10, cp_eval11 prv cur h1 h2 (by omega) a2, by decide⟩
    exact ⟨5, cp_eval12 prv cur h1 h2 (by omega) ha, by decide⟩
  · intro h1 h2 ha1 ha2
    exact cp_eval13 prv cur h1 h2 ha1 ha2

/-- Witness for C4 at one concrete input per decision branch. -/
theorem correct_position_priority_witness :
    (∃ d : Int, correct_position 100 160 = .turn d ∧ 0 < d) ∧
    (∃ d : Int, correct_position 220 160 = .turn d ∧ d < 0) ∧
    (∃ m : Int, correct_position 200 200 = .moveLeft m ∧ 0 < m) ∧
    (∃ m : Int, correct_position 100 100 = .moveRight m ∧ 0 < m) ∧
    correct_position 160 160 = .noop :=
  ⟨(correct_position_priority 100 160).1 (by decide),
   (correct_position_priority 220 160).2.1 (by decide),
   (correct_position_priority 200 200).2.2.1
     (by decide) (by decide) (by decide),
   (correct_position_priority 100 100).2.2.2.1
     (by decide) (by decide) (by decide),
   (correct_position_priority 160 160).2.2.2.2
     (by decide) (by decide) (by decide) (by decide)⟩

/-- C6: reflecting both centers about the camera center negates both the
relative and the absolute gap, and the decision mirrors exactly: a gap of
magnitude M to the right and one of magnitude M to the left produce actions
of equal magnitude and opposite direction, in the turn branches and the
move branches alike. -/
theorem correct_position_mirror (prv cur : Int) :
    correct_position (2 * cam_center - prv) (2 * cam_center - cur) =
      mirror_action (correct_position prv cur) := by
  simp only [cam_center]
  by_cases r1 : prv - cur < -12
  · rw [cp_eval1 prv cur r1,
      cp_eval4 (2 * 160 - prv) (2 * 160 - cur) (by omega)]; rfl
  by_cases r2 : prv - cur < -6
  · rw [cp_eval2 prv cur (by omega) r2,
      cp_eval5 (2 * 160 - prv) (2 * 160 - cur) (by omega) (by omega)]; rfl
  by_cases r3 : prv - cur < -3
  · rw [cp_eval3 prv cur (by omega) r3,
      cp_eval6 (2 * 160 - prv) (2 * 160 - cur) (by omega) (by omega)]; rfl
  by_cases r4 : prv - cur > 12
  · rw [cp_eval4 prv cur r4,
      cp_eval1 (2 * 160 - prv) (2 * 160 - cur) (by omega)]; rfl
  by_cases r5 : prv - cur > 6
  · rw [cp_eval5 prv cur (by omega) r5,
      cp_eval2 (2 * 160 - prv) (2 * 160 - cur) (by omega) (by omega)]; rfl
  by_cases r6 : prv - cur > 3
  · rw [cp_eval6 prv cur (by omega) r6,
      cp_eval3 (2 * 160 - prv) (2 * 160 - cur) (by omega) (by omega)]; rfl
  by_cases a1 : 160 - cur < -12
  · rw [cp_eval7 prv cur (by omega) (by omega) a1,
      cp_eval10 (2 * 160 - prv) (2 * 160 - cur) (by omega) (by omega)
        (by omega)]; rfl
  by_cases a2 : 160 - cur < -6
  · rw [cp_eval8 prv cur (by omega) (by omega) (by omega) a2,
      cp_eval11 (2 * 160 - prv) (2 * 160 - cur) (by omega) (by omega)
        (by omega) (by omega)]; rfl
  by_cases a3 : 160 - cur < -3
  · rw [cp_eval9 prv cur (by omega) (by omega) (by omega) a3,
      cp_eval12 (2 * 160 - prv) (2 * 160 - cur) (by omega) (by omega)
        (by omega) (by omega)]; rfl
  by_cases a4 : 160 - cur > 12
  · rw [cp_eval10 prv cur (by omega) (by omega) a4,
      cp_eval7 (2 * 160 - prv) (2 * 160 - cur) (by omega) (by omega)
        (by omega)]; rfl
  by_cases a5 : 160 - cur > 6
  · rw [cp_eval11 prv cur (by omega) (by omega) (by omega) a5,
      cp_eval8 (2 * 160 - prv) (2 * 160 - cur) (by omega) (by omega)
        (by omega) (by omega)]; rfl
  by_cases a6 : 160 - cur > 3
  · rw [cp_eval12 prv cur (by omega) (by omega) (by omega) a6,
      cp_eval9 (2 * 160 - prv) (2 * 160 - cur) (by omega) (by omega)
        (by omega) (by omega)]; rfl
  rw [cp_eval13 prv cur (by omega) (by omega) (by omega) (by omega),
    cp_eval13 (2 * 160 - prv) (2 * 160 - cur) (by omega) (by omega)
      (by omega) (by omega)]
  rfl
